import Mathlib

/-!
Shallow embedding of `main.py` of the vbahelper repository: an Excel
workbook analyzer that reads worksheet metadata through openpyxl, extracts
VBA macro source through a COM automation session, and writes a plain-text
report.  External collaborators (filesystem, openpyxl workbook, COM
components) are modelled as explicit inputs; the COM session lifecycle is
modelled as an event trace; the points where the automation layer can raise
are modelled by a fault parameter.
-/

set_option autoImplicit false
set_option maxRecDepth 8192

namespace VBAHelper

/-- Abstract filesystem: models `os.path.exists`. -/
structure FileSystem where
  pathExists : String → Bool

/-- An openpyxl worksheet as seen by the program: `sheet.title`,
`sheet.calculate_dimension()` and `sheet.print_area` (None when unset). -/
structure Sheet where
  title : String
  dimension : String
  printArea : Option String
deriving DecidableEq, Repr

/-- An openpyxl workbook: `wb.worksheets` in file order. -/
structure Workbook where
  sheets : List Sheet
deriving DecidableEq, Repr

/-- A COM VBComponent as read by the program: `component.Name`,
`component.Type`, `component.CodeModule.CountOfLines` and the text returned
by `component.CodeModule.Lines(1, CountOfLines)`. -/
structure VBComponent where
  cname : String
  ctype : Int
  countOfLines : Nat
  codeText : String
deriving DecidableEq, Repr

/-- The per-sheet record built at lines 49-53 of main.py. -/
structure SheetInfo where
  name : String
  has_content : Bool
  print_area : String
deriving DecidableEq, Repr, Inhabited

/-- The per-module record built at lines 63-67 of main.py. -/
structure ModuleInfo where
  name : String
  mtype : Int
  code_lines : Nat
deriving DecidableEq, Repr, Inhabited

/-- The aggregate result dict built by `analyze_excel_file`.  The Python
dict `module_code` is modelled as an insertion-ordered association list;
the optional key `vba_error` as an `Option`. -/
structure AnalysisResult where
  filename : String
  full_path : String
  analysis_date : String
  worksheets : List SheetInfo
  modules : List ModuleInfo
  module_code : List (String × String)
  vba_error : Option String
deriving DecidableEq, Repr

/-- COM session lifecycle events, in the order the program performs them. -/
inductive Event where
  | coInit
  | dispatched
  | openedWorkbook
  | closedWorkbook (saved : Bool)
  | quitApp
  | coUninit
deriving DecidableEq, Repr

/-- Where the automation layer raises an exception during the extractor
stage, if anywhere: at `Dispatch`, at `Workbooks.Open`, while reading the
metadata of component `k`, while retrieving the code text of component `k`
(only reached when its line count is positive), at `Close`, or nowhere. -/
inductive Fault where
  | ok
  | dispatchErr (msg : String)
  | openErr (msg : String)
  | infoErr (k : Nat) (msg : String)
  | codeErr (k : Nat) (msg : String)
  | closeErr (msg : String)
deriving DecidableEq, Repr

/-- The module record built from a component (lines 63-67). -/
def toModuleInfo (c : VBComponent) : ModuleInfo :=
  { name := c.cname, mtype := c.ctype, code_lines := c.countOfLines }

/-- The string stored in `module_code` for a component (lines 71-75):
the full source text when the line count is positive, the empty-module
placeholder otherwise. -/
def storedCode (c : VBComponent) : String :=
  if 0 < c.countOfLines then c.codeText else "(Empty Module)"

/-- Python dict assignment `d[k] = v`: overwrite in place when the key is
present, append otherwise (insertion order preserved).  Python dict keys
are unique, so replacing the first occurrence is exact. -/
def dictInsert : List (String × String) → String → String →
    List (String × String)
  | [], k, v => [(k, v)]
  | p :: rest, k, v =>
    if p.1 = k then (k, v) :: rest else p :: dictInsert rest k v

/-- The keys of a dict, in insertion order. -/
def dictKeys (d : List (String × String)) : List String :=
  d.map Prod.fst

/-- Whether the automation layer raises while handling one component of
the loop body: at the metadata reads (before the append) or at the code
retrieval (after the append, only reached when the line count is
positive). -/
def faultHere (fault : Fault) (idx : Nat) (c : VBComponent) :
    Option (Bool × String) :=
  match fault with
  | .infoErr k m => if k = idx then some (false, m) else none
  | .codeErr k m =>
    if k = idx ∧ 0 < c.countOfLines then some (true, m) else none
  | _ => none

/-- The `for component in wb_vba.VBProject.VBComponents` loop of lines
62-75, starting at component index `idx` with the accumulators so far.
Returns the modules list, the module_code dict, and the message of the
exception that escaped the loop, if any. -/
def runComponents : List VBComponent → Fault → Nat → List ModuleInfo →
    List (String × String) →
    List ModuleInfo × List (String × String) × Option String
  | [], _, _, mods, codes => (mods, codes, none)
  | c :: rest, fault, idx, mods, codes =>
    match faultHere fault idx c with
    | some (afterAppend, m) =>
      if afterAppend then (mods ++ [toModuleInfo c], codes, some m)
      else (mods, codes, some m)
    | none =>
      runComponents rest fault (idx + 1)
        (mods ++ [toModuleInfo c]) (dictInsert codes c.cname (storedCode c))

/-- Outcome of the extractor stage (lines 57-89): the accumulated module
data, the text of the exception caught by the `except` clause if one was
raised, and the trace of COM lifecycle events. -/
structure ExtractOutcome where
  modules : List ModuleInfo
  module_code : List (String × String)
  raised : Option String
  trace : List Event
deriving DecidableEq, Repr

/-- The extractor stage of `analyze_excel_file` (lines 57-89), including
`create_excel_instance` (lines 9-20).  `CoInitialize` always runs first;
if `Dispatch` raises, the wrapped message is thrown while `excel` is still
None, so the `finally` block performs no cleanup.  On every other path
`excel` is set and the `finally` block quits the application and
uninitializes COM.  `Close(SaveChanges=False)` is only reached when the
whole `try` body succeeds. -/
def runExtract (comps : List VBComponent) (fault : Fault) : ExtractOutcome :=
  match fault with
  | .dispatchErr m =>
    { modules := [], module_code := []
      raised := some ("Could not create Excel instance: " ++ m)
      trace := [.coInit] }
  | .openErr m =>
    { modules := [], module_code := [], raised := some m
      trace := [.coInit, .dispatched, .quitApp, .coUninit] }
  | f =>
    let out := runComponents comps f 0 [] []
    let raised : Option String :=
      match out.2.2, f with
      | some m, _ => some m
      | none, .closeErr m => some m
      | none, _ => none
    { modules := out.1, module_code := out.2.1, raised := raised
      trace :=
        if raised.isSome then
          [.coInit, .dispatched, .openedWorkbook,
           .quitApp, .coUninit]
        else
          [.coInit, .dispatched, .openedWorkbook,
           .closedWorkbook false, .quitApp, .coUninit] }

/-- The trust-center phrase matched at line 79. -/
def trustPhrase : String :=
  "Programmatic access to Visual Basic Project is not trusted"

/-- Whether the first list occurs as a contiguous run inside the second. -/
def listInfixOf (pat : List Char) : List Char → Bool
  | [] => pat.isEmpty
  | c :: rest => pat.isPrefixOf (c :: rest) || listInfixOf pat rest

/-- Python `pat in s` substring test. -/
def containsSubstr (s pat : String) : Bool :=
  listInfixOf pat.data s.data

/-- The `except` clause classification of lines 78-82. -/
def classifyVbaError (m : String) : String :=
  if containsSubstr m trustPhrase then
    "VBA access not enabled in Excel Trust Center"
  else m

/-- Model of `os.path.basename` with a slash separator. -/
def os_path_basename (p : String) : String :=
  (p.splitOn "/").getLastD ""

/-- Model of `os.path.dirname` with a slash separator. -/
def os_path_dirname (p : String) : String :=
  String.intercalate "/" (p.splitOn "/").dropLast

/-- Model of `os.path.join` for one component. -/
def os_path_join (d f : String) : String :=
  if d = "" then f
  else if d.endsWith "/" then d ++ f
  else d ++ "/" ++ f

/-- Model of `os.path.splitext` on a bare filename: split at the last dot,
keeping a leading-dot-only name whole. -/
def os_path_splitext (name : String) : String × String :=
  let parts := name.splitOn "."
  if parts.length ≤ 1 then (name, "")
  else if parts.headD "" = "" ∧ parts.length = 2 then (name, "")
  else (String.intercalate "." parts.dropLast, "." ++ parts.getLastD "")

/-- The per-sheet record of lines 49-53: `has_content` is whether the
calculated dimension differs from A1:A1; `print_area` applies Python
truthiness, so None and the empty string both become the sentinel. -/
def mkSheetInfo (s : Sheet) : SheetInfo :=
  { name := s.title
    has_content := decide (s.dimension ≠ "A1:A1")
    print_area :=
      match s.printArea with
      | none => "Not Set"
      | some a => if a = "" then "Not Set" else a }

/-- Result of `analyze_excel_file`: either the raised FileNotFoundError
message or the populated result dict, together with the COM event trace. -/
structure AnalyzeOut where
  result : Except String AnalysisResult
  trace : List Event
deriving Repr

/-- The whole of `analyze_excel_file` (lines 22-91).  The nonexistence
check raises before anything else; the reader stage fills `worksheets`;
the extractor stage fills `modules`/`module_code` or records
`vba_error`. -/
def analyze_excel_file (fs : FileSystem) (wb : Workbook)
    (comps : List VBComponent) (fault : Fault) (now : String)
    (file_path : String) : AnalyzeOut :=
  if fs.pathExists file_path then
    let ex := runExtract comps fault
    { result := .ok
        { filename := os_path_basename file_path
          full_path := file_path
          analysis_date := now
          worksheets := wb.sheets.map mkSheetInfo
          modules := ex.modules
          module_code := ex.module_code
          vba_error := ex.raised.map classifyVbaError }
      trace := ex.trace }
  else
    { result := .error ("File not found: " ++ file_path), trace := [] }

/-- Python `s * n` string repetition. -/
def strRepeat (s : String) (n : Nat) : String :=
  String.join (List.replicate n s)

/-- The three `f.write` calls of the report banner (lines 107-109). -/
def headWrites : List String :=
  [strRepeat "=" 80 ++ "\n",
   "Excel File Analysis Report\n",
   strRepeat "=" 80 ++ "\n\n"]

/-- The file-information block (lines 112-116). -/
def fileInfoWrites (r : AnalysisResult) : List String :=
  ["FILE INFORMATION\n",
   strRepeat "-" 50 ++ "\n",
   "Filename: " ++ r.filename ++ "\n",
   "Full Path: " ++ r.full_path ++ "\n",
   "Analysis Date: " ++ r.analysis_date ++ "\n\n"]

/-- The writes for one sheet (lines 123-125); Python formats the boolean
as True/False. -/
def sheetWrites (s : SheetInfo) : List String :=
  ["\nSheet Name: " ++ s.name ++ "\n",
   "Has Content: " ++ (if s.has_content then "True" else "False") ++ "\n",
   "Print Area: " ++ s.print_area ++ "\n"]

/-- The worksheet-information block (lines 119-126). -/
def worksheetWrites (r : AnalysisResult) : List String :=
  ["WORKSHEET INFORMATION\n",
   strRepeat "-" 50 ++ "\n",
   "Total Worksheets: " ++ toString r.worksheets.length ++ "\n"]
  ++ (r.worksheets.map sheetWrites).flatten
  ++ ["\n"]

/-- The writes for one module record (lines 138-140). -/
def moduleWrites (m : ModuleInfo) : List String :=
  ["\nModule Name: " ++ m.name ++ "\n",
   "Type: " ++ toString m.mtype ++ "\n",
   "Code Lines: " ++ toString m.code_lines ++ "\n"]

/-- The writes for one module_code entry (lines 147-150). -/
def codeWrites (p : String × String) : List String :=
  ["\n" ++ p.1 ++ "\n",
   strRepeat "-" p.1.length ++ "\n",
   p.2 ++ "\n",
   "\n"]

/-- The VBA part of the report (lines 129-150): when `vba_error` is
present only an error block is written; otherwise the module-information
block is followed by the module-code block. -/
def vbaWrites (r : AnalysisResult) : List String :=
  match r.vba_error with
  | some e =>
    ["VBA MODULE INFORMATION\n",
     strRepeat "-" 50 ++ "\n",
     "Error: " ++ e ++ "\n\n"]
  | none =>
    ["VBA MODULE INFORMATION\n",
     strRepeat "-" 50 ++ "\n",
     "Total Modules: " ++ toString r.modules.length ++ "\n"]
    ++ (r.modules.map moduleWrites).flatten
    ++ ["\n", "VBA MODULE CODE\n", strRepeat "-" 50 ++ "\n"]
    ++ (r.module_code.map codeWrites).flatten

/-- All `f.write` calls of `save_analysis_to_file` in order
(lines 105-150). -/
def reportWrites (r : AnalysisResult) : List String :=
  headWrites ++ fileInfoWrites r ++ worksheetWrites r ++ vbaWrites r

/-- `save_analysis_to_file` (lines 93-152): derives the output path and
returns it together with the sequence of writes.  `output_dir` defaults to
the directory of the analyzed file; `ts` stands for the strftime
Y-m-d_H-M-S timestamp string. -/
def save_analysis_to_file (r : AnalysisResult) (output_dir : Option String)
    (ts : String) : String × List String :=
  let dir :=
    match output_dir with
    | none => os_path_dirname r.full_path
    | some d => d
  let base := (os_path_splitext r.filename).1
  (os_path_join dir (base ++ "_analysis_" ++ ts ++ ".txt"), reportWrites r)

/-- Observable actions of `main` (lines 171-195). -/
inductive MainAction where
  | printedNoFile
  | wroteReport (path : String) (encoding : String) (content : String)
  | infoDialog (title : String) (msg : String)
  | errorDialog (title : String) (msg : String)
deriving DecidableEq, Repr

/-- The `main` orchestrator (lines 171-195): empty picker result returns
at once; a raised FileNotFoundError is caught by the outer handler and
shown in an error dialog; otherwise the report is written (UTF-8) and an
info dialog names the output path.  Returns the action list and the COM
event trace. -/
def mainRun (fs : FileSystem) (wb : Workbook) (comps : List VBComponent)
    (fault : Fault) (now ts picked : String) :
    List MainAction × List Event :=
  if picked = "" then ([.printedNoFile], [])
  else
    let out := analyze_excel_file fs wb comps fault now picked
    match out.result with
    | .error m =>
      ([.errorDialog "Error" ("An error occurred: " ++ m)], out.trace)
    | .ok r =>
      let saved := save_analysis_to_file r none ts
      ([.wroteReport saved.1 "utf-8" (String.join saved.2),
        .infoDialog "Analysis Complete"
          ("Analysis has been saved to:\n" ++ saved.1)],
       out.trace)

/-- The dict produced by running the loop body store over a component
list, starting from `d`. -/
def buildCodes (comps : List VBComponent) (d : List (String × String)) :
    List (String × String) :=
  comps.foldl (fun acc c => dictInsert acc c.cname (storedCode c)) d

/-- The result record `analyze_excel_file` returns when the path exists:
the same record the function body builds, named for use in proofs. -/
def analyzeRecord (wb : Workbook) (comps : List VBComponent)
    (fault : Fault) (now path : String) : AnalysisResult :=
  { filename := os_path_basename path
    full_path := path
    analysis_date := now
    worksheets := wb.sheets.map mkSheetInfo
    modules := (runExtract comps fault).modules
    module_code := (runExtract comps fault).module_code
    vba_error := ((runExtract comps fault).raised).map classifyVbaError }

/-! Sample values used by witnesses and counterexamples. -/

/-- A filesystem on which every path exists. -/
def fsYes : FileSystem := ⟨fun _ => true⟩

/-- A filesystem on which no path exists. -/
def fsNo : FileSystem := ⟨fun _ => false⟩

/-- A sheet with content and no print area. -/
def sheetOne : Sheet := ⟨"Sheet1", "A1:B2", none⟩

/-- An empty sheet with a configured print area. -/
def sheetTwo : Sheet := ⟨"Sheet2", "A1:A1", some "Sheet2!A1:B2"⟩

/-- A two-sheet workbook. -/
def wbSample : Workbook := ⟨[sheetOne, sheetTwo]⟩

/-- A standard module holding two lines of code. -/
def compFull : VBComponent := ⟨"Module1", 1, 2, "Sub Demo()\nEnd Sub"⟩

/-- A class module holding no code. -/
def compEmpty : VBComponent := ⟨"Module2", 2, 0, ""⟩

/-- A populated result whose macro extraction succeeded. -/
def resOkSample : AnalysisResult :=
  { filename := "book.xlsm", full_path := "/tmp/book.xlsm"
    analysis_date := "2026-01-01 00:00:00"
    worksheets := [mkSheetInfo sheetOne, mkSheetInfo sheetTwo]
    modules := [toModuleInfo compFull, toModuleInfo compEmpty]
    module_code := [("Module1", "Sub Demo()\nEnd Sub"),
                    ("Module2", "(Empty Module)")]
    vba_error := none }

/-- A populated result whose macro extraction failed. -/
def resErrSample : AnalysisResult :=
  { filename := "book.xlsm", full_path := "/tmp/book.xlsm"
    analysis_date := "2026-01-01 00:00:00"
    worksheets := [mkSheetInfo sheetOne, mkSheetInfo sheetTwo]
    modules := [], module_code := []
    vba_error := some "VBA access not enabled in Excel Trust Center" }

/-! Helper lemmas about the dict operations and the component loop. -/

theorem append_ne_of_not_isPrefixOf (p s t : String)
    (h : p.data.isPrefixOf t.data = false) : p ++ s ≠ t := by
  intro he
  subst he
  rw [String.data_append] at h
  have hp : p.data.isPrefixOf (p.data ++ s.data) = true :=
    List.isPrefixOf_iff_prefix.mpr (List.prefix_append _ _)
  rw [hp] at h
  exact Bool.noConfusion h

theorem mem_dictKeys_dictInsert (d : List (String × String)) (k v n : String) :
    n ∈ dictKeys (dictInsert d k v) ↔ n = k ∨ n ∈ dictKeys d := by
  induction d with
  | nil => simp [dictInsert, dictKeys]
  | cons p rest ih =>
    by_cases h : p.1 = k
    · simp only [dictInsert, if_pos h, dictKeys, List.map_cons]
      simp [dictKeys] at *
      rw [← h]
      tauto
    · simp only [dictInsert, if_neg h, dictKeys, List.map_cons] at *
      simp [dictKeys] at *
      tauto

theorem lookup_dictInsert_self (d : List (String × String)) (k v : String) :
    (dictInsert d k v).lookup k = some v := by
  induction d with
  | nil => simp [dictInsert, List.lookup]
  | cons p rest ih =>
    by_cases h : p.1 = k
    · simp [dictInsert, if_pos h, List.lookup]
    · simp only [dictInsert, if_neg h, List.lookup]
      have : (k == p.1) = false := by
        simp [beq_iff_eq]
        exact fun he => h he.symm
      rw [this]
      exact ih

theorem lookup_dictInsert_ne (d : List (String × String)) (k v n : String)
    (h : n ≠ k) : (dictInsert d k v).lookup n = d.lookup n := by
  have hb : (n == k) = false := beq_eq_false_iff_ne.mpr h
  induction d with
  | nil => simp [dictInsert, List.lookup, hb]
  | cons p rest ih =>
    by_cases hp : p.1 = k
    · simp only [dictInsert, if_pos hp, List.lookup]
      have h1 : (n == k) = false := by simp [beq_iff_eq, h]
      have h2 : (n == p.1) = false := by
        simp [beq_iff_eq]
        exact fun he => h (he.trans hp)
      rw [h1, h2]
    · simp only [dictInsert, if_neg hp, List.lookup]
      cases hb : (n == p.1) with
      | true => rfl
      | false => exact ih

theorem buildCodes_cons (c : VBComponent) (comps : List VBComponent)
    (d : List (String × String)) :
    buildCodes (c :: comps) d =
      buildCodes comps (dictInsert d c.cname (storedCode c)) := rfl

theorem mem_dictKeys_buildCodes (comps : List VBComponent)
    (d : List (String × String)) (n : String) :
    n ∈ dictKeys (buildCodes comps d) ↔
      n ∈ comps.map VBComponent.cname ∨ n ∈ dictKeys d := by
  induction comps generalizing d with
  | nil => simp [buildCodes]
  | cons c rest ih =>
    rw [buildCodes_cons, ih, mem_dictKeys_dictInsert, List.map_cons,
      List.mem_cons]
    tauto

theorem lookup_buildCodes_notMem (comps : List VBComponent)
    (d : List (String × String)) (n : String)
    (h : n ∉ comps.map VBComponent.cname) :
    (buildCodes comps d).lookup n = d.lookup n := by
  induction comps generalizing d with
  | nil => rfl
  | cons c rest ih =>
    rw [List.map_cons, List.mem_cons] at h
    push_neg at h
    rw [buildCodes_cons, ih _ h.2, lookup_dictInsert_ne _ _ _ _ h.1]

theorem lookup_buildCodes_mem (comps : List VBComponent)
    (d : List (String × String)) (c : VBComponent) (hc : c ∈ comps)
    (hnd : (comps.map VBComponent.cname).Nodup) :
    (buildCodes comps d).lookup c.cname = some (storedCode c) := by
  induction comps generalizing d with
  | nil => cases hc
  | cons c0 rest ih =>
    rw [List.map_cons, List.nodup_cons] at hnd
    rcases List.mem_cons.mp hc with rfl | hc0
    · rw [buildCodes_cons, lookup_buildCodes_notMem _ _ _ hnd.1,
        lookup_dictInsert_self]
    · exact ih _ hc0 hnd.2

theorem runComponents_none (comps : List VBComponent) (fault : Fault)
    (idx : Nat) (mods : List ModuleInfo) (codes : List (String × String))
    (h : (runComponents comps fault idx mods codes).2.2 = none) :
    (runComponents comps fault idx mods codes).1 =
      mods ++ comps.map toModuleInfo ∧
    (runComponents comps fault idx mods codes).2.1 =
      buildCodes comps codes := by
  induction comps generalizing idx mods codes with
  | nil => simp [runComponents, buildCodes]
  | cons c rest ih =>
    cases hf : faultHere fault idx c with
    | some bm =>
      rw [runComponents, hf] at h
      rcases bm with ⟨b, m⟩
      cases b <;> simp at h
    | none =>
      rw [runComponents, hf] at h ⊢
      have := ih (idx + 1) (mods ++ [toModuleInfo c])
        (dictInsert codes c.cname (storedCode c)) h
      rw [this.1, this.2, buildCodes_cons]
      simp

theorem runComponents_take (comps : List VBComponent) (fault : Fault)
    (idx : Nat) (mods : List ModuleInfo) (codes : List (String × String)) :
    ∃ n, (runComponents comps fault idx mods codes).1 =
      mods ++ (comps.map toModuleInfo).take n := by
  induction comps generalizing idx mods codes with
  | nil => exact ⟨0, by simp [runComponents]⟩
  | cons c rest ih =>
    cases hf : faultHere fault idx c with
    | some bm =>
      rcases bm with ⟨b, m⟩
      cases b
      · exact ⟨0, by simp [runComponents, hf]⟩
      · exact ⟨1, by simp [runComponents, hf]⟩
    | none =>
      obtain ⟨n, hn⟩ := ih (idx + 1) (mods ++ [toModuleInfo c])
        (dictInsert codes c.cname (storedCode c))
      refine ⟨n + 1, ?_⟩
      rw [runComponents, hf, hn]
      simp

theorem runComponents_keys_subset (comps : List VBComponent) (fault : Fault)
    (idx : Nat) (mods : List ModuleInfo) (codes : List (String × String))
    (h : ∀ n ∈ dictKeys codes, n ∈ mods.map ModuleInfo.name) :
    ∀ n ∈ dictKeys (runComponents comps fault idx mods codes).2.1,
      n ∈ (runComponents comps fault idx mods codes).1.map
        ModuleInfo.name := by
  induction comps generalizing idx mods codes with
  | nil => simpa [runComponents] using h
  | cons c rest ih =>
    cases hf : faultHere fault idx c with
    | some bm =>
      rcases bm with ⟨b, m⟩
      cases b
      · rw [runComponents, hf]
        intro n hn
        exact h n hn
      · rw [runComponents, hf]
        intro n hn
        have hm : n ∈ List.map ModuleInfo.name (mods ++ [toModuleInfo c]) := by
          rw [List.map_append, List.mem_append]
          exact Or.inl (h n hn)
        exact hm
    | none =>
      rw [runComponents, hf]
      apply ih
      intro n hn
      rw [mem_dictKeys_dictInsert] at hn
      rcases hn with rfl | hn
      · simp [toModuleInfo]
      · simp only [List.map_append, List.mem_append]
        exact Or.inl (h n hn)

theorem runExtract_raised_none (comps : List VBComponent) (fault : Fault)
    (h : (runExtract comps fault).raised = none) :
    (runExtract comps fault).modules = comps.map toModuleInfo ∧
    (runExtract comps fault).module_code = buildCodes comps [] := by
  cases fault with
  | dispatchErr m => simp [runExtract] at h
  | openErr m => simp [runExtract] at h
  | closeErr m =>
    cases hrc : (runComponents comps (.closeErr m) 0 [] []).2.2 with
    | some m2 => simp [runExtract, hrc] at h
    | none => simp [runExtract, hrc] at h
  | ok =>
    cases hrc : (runComponents comps .ok 0 [] []).2.2 with
    | some m2 => simp [runExtract, hrc] at h
    | none =>
      have hn := runComponents_none comps .ok 0 [] [] hrc
      simp only [List.nil_append] at hn
      simp [runExtract, hn.1, hn.2]
  | infoErr k m =>
    cases hrc : (runComponents comps (.infoErr k m) 0 [] []).2.2 with
    | some m2 => simp [runExtract, hrc] at h
    | none =>
      have hn := runComponents_none comps (.infoErr k m) 0 [] [] hrc
      simp only [List.nil_append] at hn
      simp [runExtract, hn.1, hn.2]
  | codeErr k m =>
    cases hrc : (runComponents comps (.codeErr k m) 0 [] []).2.2 with
    | some m2 => simp [runExtract, hrc] at h
    | none =>
      have hn := runComponents_none comps (.codeErr k m) 0 [] [] hrc
      simp only [List.nil_append] at hn
      simp [runExtract, hn.1, hn.2]

theorem runExtract_modules_take (comps : List VBComponent) (fault : Fault) :
    ∃ n, (runExtract comps fault).modules =
      (comps.map toModuleInfo).take n := by
  cases fault with
  | dispatchErr m => exact ⟨0, by simp [runExtract]⟩
  | openErr m => exact ⟨0, by simp [runExtract]⟩
  | ok =>
    obtain ⟨n, hn⟩ := runComponents_take comps .ok 0 [] []
    exact ⟨n, by simp [runExtract]; simpa using hn⟩
  | closeErr m =>
    obtain ⟨n, hn⟩ := runComponents_take comps (.closeErr m) 0 [] []
    exact ⟨n, by simp [runExtract]; simpa using hn⟩
  | infoErr k m =>
    obtain ⟨n, hn⟩ := runComponents_take comps (.infoErr k m) 0 [] []
    exact ⟨n, by simp [runExtract]; simpa using hn⟩
  | codeErr k m =>
    obtain ⟨n, hn⟩ := runComponents_take comps (.codeErr k m) 0 [] []
    exact ⟨n, by simp [runExtract]; simpa using hn⟩

theorem runExtract_keys_subset (comps : List VBComponent) (fault : Fault) :
    ∀ n ∈ dictKeys (runExtract comps fault).module_code,
      n ∈ (runExtract comps fault).modules.map ModuleInfo.name := by
  cases fault with
  | dispatchErr m => intro n hn; simp [runExtract, dictKeys] at hn
  | openErr m => intro n hn; simp [runExtract, dictKeys] at hn
  | ok =>
    exact runComponents_keys_subset comps .ok 0 [] [] (by simp [dictKeys])
  | closeErr m =>
    exact runComponents_keys_subset comps (.closeErr m) 0 [] []
      (by simp [dictKeys])
  | infoErr k m =>
    exact runComponents_keys_subset comps (.infoErr k m) 0 [] []
      (by simp [dictKeys])
  | codeErr k m =>
    exact runComponents_keys_subset comps (.codeErr k m) 0 [] []
      (by simp [dictKeys])

theorem runExtract_trace_cleanup (comps : List VBComponent) (fault : Fault)
    (hd : ∀ m, fault ≠ Fault.dispatchErr m) :
    Event.quitApp ∈ (runExtract comps fault).trace ∧
    Event.coUninit ∈ (runExtract comps fault).trace ∧
    (Event.closedWorkbook false ∈ (runExtract comps fault).trace ↔
      (runExtract comps fault).raised = none) := by
  cases fault with
  | dispatchErr m => exact absurd rfl (hd m)
  | openErr m => refine ⟨by simp [runExtract], by simp [runExtract], ?_⟩
                 simp [runExtract]
  | ok =>
    cases hrc : (runComponents comps .ok 0 [] []).2.2 with
    | some m2 =>
      refine ⟨by simp [runExtract, hrc], by simp [runExtract, hrc], ?_⟩
      simp [runExtract, hrc]
    | none =>
      refine ⟨by simp [runExtract, hrc], by simp [runExtract, hrc], ?_⟩
      simp [runExtract, hrc]
  | closeErr m =>
    cases hrc : (runComponents comps (.closeErr m) 0 [] []).2.2 with
    | some m2 =>
      refine ⟨by simp [runExtract, hrc], by simp [runExtract, hrc], ?_⟩
      simp [runExtract, hrc]
    | none =>
      refine ⟨by simp [runExtract, hrc], by simp [runExtract, hrc], ?_⟩
      simp [runExtract, hrc]
  | infoErr k m =>
    cases hrc : (runComponents comps (.infoErr k m) 0 [] []).2.2 with
    | some m2 =>
      refine ⟨by simp [runExtract, hrc], by simp [runExtract, hrc], ?_⟩
      simp [runExtract, hrc]
    | none =>
      refine ⟨by simp [runExtract, hrc], by simp [runExtract, hrc], ?_⟩
      simp [runExtract, hrc]
  | codeErr k m =>
    cases hrc : (runComponents comps (.codeErr k m) 0 [] []).2.2 with
    | some m2 =>
      refine ⟨by simp [runExtract, hrc], by simp [runExtract, hrc], ?_⟩
      simp [runExtract, hrc]
    | none =>
      refine ⟨by simp [runExtract, hrc], by simp [runExtract, hrc], ?_⟩
      simp [runExtract, hrc]

theorem runExtract_dispatch_trace (comps : List VBComponent) (m : String) :
    (runExtract comps (.dispatchErr m)).trace = [Event.coInit] := rfl

theorem analyze_ok (fs : FileSystem) (wb : Workbook)
    (comps : List VBComponent) (fault : Fault) (now path : String)
    (hex : fs.pathExists path = true) :
    (analyze_excel_file fs wb comps fault now path).result =
      .ok (analyzeRecord wb comps fault now path) := by
  simp [analyze_excel_file, hex, analyzeRecord]

theorem analyze_trace_eq (fs : FileSystem) (wb : Workbook)
    (comps : List VBComponent) (fault : Fault) (now path : String)
    (hex : fs.pathExists path = true) :
    (analyze_excel_file fs wb comps fault now path).trace =
      (runExtract comps fault).trace := by
  simp [analyze_excel_file, hex]

/-- C10: if the file picker returns an empty selection (user
cancellation), `main` returns immediately: the only action is the
no-file message, no COM event occurs, no analysis is performed and no
report file is written. -/
theorem C10_cancel_returns (fs : FileSystem) (wb : Workbook)
    (comps : List VBComponent) (fault : Fault) (now ts : String) :
    mainRun fs wb comps fault now ts "" =
      ([MainAction.printedNoFile], []) := rfl

/-- C5: for every path that does not exist, `analyze_excel_file` fails
with the FileNotFound message before any analysis is performed (the COM
trace is empty), and `main` writes no report file. -/
theorem C5_file_not_found (fs : FileSystem) (wb : Workbook)
    (comps : List VBComponent) (fault : Fault) (now ts path : String)
    (h : fs.pathExists path = false) :
    (analyze_excel_file fs wb comps fault now path).result =
      .error ("File not found: " ++ path) ∧
    (analyze_excel_file fs wb comps fault now path).trace = [] ∧
    ∀ p enc c, MainAction.wroteReport p enc c ∉
      (mainRun fs wb comps fault now ts path).1 := by
  refine ⟨by simp [analyze_excel_file, h], by simp [analyze_excel_file, h],
    ?_⟩
  intro p enc c
  by_cases hp : path = ""
  · simp [mainRun, hp]
  · simp [mainRun, hp, analyze_excel_file, h]

/-- Witness for C5 at a concrete nonexistent path. -/
theorem C5_file_not_found_witness :
    fsNo.pathExists "/nope.xlsx" = false ∧
    ((analyze_excel_file fsNo wbSample [] .ok "d" "/nope.xlsx").result =
      .error ("File not found: " ++ "/nope.xlsx") ∧
     (analyze_excel_file fsNo wbSample [] .ok "d" "/nope.xlsx").trace = [] ∧
     ∀ p enc c, MainAction.wroteReport p enc c ∉
       (mainRun fsNo wbSample [] .ok "d" "ts" "/nope.xlsx").1) :=
  ⟨rfl, C5_file_not_found fsNo wbSample [] .ok "d" "ts" "/nope.xlsx" rfl⟩

/-- C9: at every point during macro enumeration, including when an
exception interrupts the loop at any position, every key of the
module_code mapping is the name of an entry already appended to the
modules list: the key set is a subset of the module-name set. -/
theorem C9_keys_subset_names (comps : List VBComponent) (fault : Fault) :
    ∀ n ∈ dictKeys (runExtract comps fault).module_code,
      n ∈ (runExtract comps fault).modules.map ModuleInfo.name :=
  runExtract_keys_subset comps fault

/-- Witness for C9 on a concrete interrupted run. -/
theorem C9_keys_subset_names_witness :
    "Module1" ∈
      dictKeys (runExtract [compFull, compEmpty]
        (.infoErr 1 "x")).module_code ∧
    "Module1" ∈
      (runExtract [compFull, compEmpty]
        (.infoErr 1 "x")).modules.map ModuleInfo.name :=
  ⟨by decide,
   C9_keys_subset_names [compFull, compEmpty] (.infoErr 1 "x") "Module1"
     (by decide)⟩

/-- C6: every exception caught during the extractor stage is recorded as
the clarified trust-center message when its text contains the trust-center
phrase and as the raw message otherwise, and the run continues: the
analysis still returns a populated result. -/
theorem C6_vba_error_classified (fs : FileSystem) (wb : Workbook)
    (comps : List VBComponent) (fault : Fault) (now path m : String)
    (hex : fs.pathExists path = true)
    (hm : (runExtract comps fault).raised = some m) :
    ∃ r : AnalysisResult,
      (analyze_excel_file fs wb comps fault now path).result = .ok r ∧
      r.vba_error = some (if containsSubstr m trustPhrase then
        "VBA access not enabled in Excel Trust Center" else m) := by
  refine ⟨_, analyze_ok fs wb comps fault now path hex, ?_⟩
  simp [analyzeRecord, hm, classifyVbaError]

/-- Witness for C6 at a concrete failing run (raw message case). -/
theorem C6_vba_error_classified_witness :
    fsYes.pathExists "/tmp/book.xlsm" = true ∧
    (runExtract [] (.openErr "denied")).raised = some "denied" ∧
    (∃ r : AnalysisResult,
      (analyze_excel_file fsYes wbSample [] (.openErr "denied") "d"
        "/tmp/book.xlsm").result = .ok r ∧
      r.vba_error = some (if containsSubstr "denied" trustPhrase then
        "VBA access not enabled in Excel Trust Center" else "denied")) :=
  ⟨rfl, rfl,
   C6_vba_error_classified fsYes wbSample [] (.openErr "denied") "d"
     "/tmp/book.xlsm" "denied" rfl rfl⟩

/-- C3: for a workbook with N worksheets the result worksheet list is the
per-sheet record of every sheet in workbook order (so it has exactly N
entries), and the per-sheet record has `has_content` false exactly when
the calculated used range is A1:A1, and `print_area` the configured
print-area string, with the sentinel substituted when it is unset. -/
theorem C3_worksheet_records (fs : FileSystem) (wb : Workbook)
    (comps : List VBComponent) (fault : Fault) (now path : String)
    (hex : fs.pathExists path = true) :
    (∃ r : AnalysisResult,
      (analyze_excel_file fs wb comps fault now path).result = .ok r ∧
      r.worksheets = wb.sheets.map mkSheetInfo ∧
      r.worksheets.length = wb.sheets.length) ∧
    ∀ s : Sheet,
      (mkSheetInfo s).name = s.title ∧
      ((mkSheetInfo s).has_content = false ↔ s.dimension = "A1:A1") ∧
      (s.printArea = none → (mkSheetInfo s).print_area = "Not Set") ∧
      (∀ a : String, s.printArea = some a → a ≠ "" →
        (mkSheetInfo s).print_area = a) := by
  constructor
  · refine ⟨_, analyze_ok fs wb comps fault now path hex, ?_, ?_⟩
    · simp [analyzeRecord]
    · simp [analyzeRecord]
  · intro s
    refine ⟨rfl, ?_, ?_, ?_⟩
    · simp [mkSheetInfo]
    · intro h
      simp [mkSheetInfo, h]
    · intro a ha hne
      simp [mkSheetInfo, ha, hne]

/-- Witness for C3 on a concrete two-sheet workbook. -/
theorem C3_worksheet_records_witness :
    fsYes.pathExists "/tmp/book.xlsm" = true ∧
    ((∃ r : AnalysisResult,
      (analyze_excel_file fsYes wbSample [] .ok "d"
        "/tmp/book.xlsm").result = .ok r ∧
      r.worksheets = wbSample.sheets.map mkSheetInfo ∧
      r.worksheets.length = wbSample.sheets.length) ∧
    ∀ s : Sheet,
      (mkSheetInfo s).name = s.title ∧
      ((mkSheetInfo s).has_content = false ↔ s.dimension = "A1:A1") ∧
      (s.printArea = none → (mkSheetInfo s).print_area = "Not Set") ∧
      (∀ a : String, s.printArea = some a → a ≠ "" →
        (mkSheetInfo s).print_area = a)) :=
  ⟨rfl, C3_worksheet_records fsYes wbSample [] .ok "d" "/tmp/book.xlsm" rfl⟩

/-- C1 counterexample: when `Dispatch` fails the trace holds the
CoInitialize event but neither CoUninitialize nor Quit, so the automation
runtime stays initialized although session creation failed after the
runtime was initialized; and when an exception interrupts the enumeration,
the workbook handle is never closed via Close(SaveChanges=False).  Both
refute the claim that the full cleanup runs on all exit paths. -/
theorem C1_cleanup_counterexample :
    (Event.coInit ∈ (analyze_excel_file fsYes wbSample [compFull]
        (.dispatchErr "boom") "d" "/tmp/book.xlsm").trace ∧
     Event.coUninit ∉ (analyze_excel_file fsYes wbSample [compFull]
        (.dispatchErr "boom") "d" "/tmp/book.xlsm").trace ∧
     Event.quitApp ∉ (analyze_excel_file fsYes wbSample [compFull]
        (.dispatchErr "boom") "d" "/tmp/book.xlsm").trace) ∧
    Event.closedWorkbook false ∉ (analyze_excel_file fsYes wbSample
        [compFull, compEmpty] (.codeErr 0 "enum crash") "d"
        "/tmp/book.xlsm").trace := by decide

/-- C1 amended: the cleanup (Quit and CoUninitialize) runs on every exit
path on which the Excel instance was successfully created, whatever
happens later; the workbook handle is closed without saving exactly when
no exception is raised in the extractor body; and when Dispatch itself
fails after CoInitialize, no cleanup runs at all: the trace is exactly the
CoInitialize event. -/
theorem C1_cleanup_amended (fs : FileSystem) (wb : Workbook)
    (comps : List VBComponent) (fault : Fault) (now path : String)
    (hex : fs.pathExists path = true) :
    ((∀ m, fault ≠ Fault.dispatchErr m) →
      Event.quitApp ∈
        (analyze_excel_file fs wb comps fault now path).trace ∧
      Event.coUninit ∈
        (analyze_excel_file fs wb comps fault now path).trace ∧
      (Event.closedWorkbook false ∈
          (analyze_excel_file fs wb comps fault now path).trace ↔
        (runExtract comps fault).raised = none)) ∧
    (∀ m, fault = Fault.dispatchErr m →
      (analyze_excel_file fs wb comps fault now path).trace =
        [Event.coInit]) := by
  rw [analyze_trace_eq fs wb comps fault now path hex]
  constructor
  · intro hd
    exact runExtract_trace_cleanup comps fault hd
  · intro m hm
    subst hm
    exact runExtract_dispatch_trace comps m

/-- Witness for the amended C1 on a concrete successful run. -/
theorem C1_cleanup_amended_witness :
    fsYes.pathExists "/tmp/book.xlsm" = true ∧
    (Event.quitApp ∈ (analyze_excel_file fsYes wbSample [compFull] .ok "d"
        "/tmp/book.xlsm").trace ∧
     Event.coUninit ∈ (analyze_excel_file fsYes wbSample [compFull]
        .ok "d" "/tmp/book.xlsm").trace ∧
     (Event.closedWorkbook false ∈ (analyze_excel_file fsYes wbSample
          [compFull] .ok "d" "/tmp/book.xlsm").trace ↔
       (runExtract [compFull] .ok).raised = none)) :=
  ⟨rfl,
   (C1_cleanup_amended fsYes wbSample [compFull] .ok "d" "/tmp/book.xlsm"
      rfl).1 (fun _ h => Fault.noConfusion h)⟩

/-- C2 counterexample: a run interrupted at the second component records a
vba_error but leaves the first module in the modules list and its source
in module_code, refuting the claim that both are empty whenever macro
extraction fails. -/
theorem C2_failure_counterexample :
    ((analyze_excel_file fsYes wbSample [compFull, compEmpty]
        (.infoErr 1 "crash") "d" "/tmp/book.xlsm").result.toOption.map
      (fun r => (r.vba_error, r.modules.length, r.module_code.length))) =
      some (some "crash", 1, 1) := by decide

/-- C2 amended: when macro extraction fails, a vba_error string (the
classified exception text) is recorded, the worksheet data already
gathered is unchanged, and the modules list and module_code mapping hold
exactly the entries recorded before the exception: the modules list is a
prefix of the per-component records (empty when the failure precedes the
first component) and every module_code key names a recorded module. -/
theorem C2_failure_amended (fs : FileSystem) (wb : Workbook)
    (comps : List VBComponent) (fault : Fault) (now path m : String)
    (hex : fs.pathExists path = true)
    (hm : (runExtract comps fault).raised = some m) :
    ∃ r : AnalysisResult,
      (analyze_excel_file fs wb comps fault now path).result = .ok r ∧
      r.vba_error = some (classifyVbaError m) ∧
      r.worksheets = wb.sheets.map mkSheetInfo ∧
      (∃ n, r.modules = (comps.map toModuleInfo).take n) ∧
      (∀ x ∈ dictKeys r.module_code,
        x ∈ r.modules.map ModuleInfo.name) := by
  refine ⟨_, analyze_ok fs wb comps fault now path hex, ?_, ?_, ?_, ?_⟩
  · simp [analyzeRecord, hm]
  · simp [analyzeRecord]
  · simpa [analyzeRecord] using runExtract_modules_take comps fault
  · intro x hx
    exact runExtract_keys_subset comps fault x hx

/-- Witness for the amended C2 on a concrete interrupted run. -/
theorem C2_failure_amended_witness :
    fsYes.pathExists "/tmp/book.xlsm" = true ∧
    (runExtract [compFull, compEmpty] (.infoErr 1 "crash")).raised =
      some "crash" ∧
    (∃ r : AnalysisResult,
      (analyze_excel_file fsYes wbSample [compFull, compEmpty]
        (.infoErr 1 "crash") "d" "/tmp/book.xlsm").result = .ok r ∧
      r.vba_error = some (classifyVbaError "crash") ∧
      r.worksheets = wbSample.sheets.map mkSheetInfo ∧
      (∃ n, r.modules =
        (([compFull, compEmpty] : List VBComponent).map toModuleInfo).take
          n) ∧
      (∀ x ∈ dictKeys r.module_code,
        x ∈ r.modules.map ModuleInfo.name)) :=
  ⟨rfl, by decide,
   C2_failure_amended fsYes wbSample [compFull, compEmpty]
     (.infoErr 1 "crash") "d" "/tmp/book.xlsm" "crash" rfl (by decide)⟩

/-- C4: whenever macro extraction succeeds, the module_code key set
equals the module-name set; every module with zero code lines maps to the
empty-module placeholder, and every module with a positive line count
maps to its full source text verbatim (module names are unique within a
VBA project). -/
theorem C4_success_mapping (fs : FileSystem) (wb : Workbook)
    (comps : List VBComponent) (fault : Fault) (now path : String)
    (hex : fs.pathExists path = true)
    (hra : (runExtract comps fault).raised = none)
    (hnd : (comps.map VBComponent.cname).Nodup) :
    ∃ r : AnalysisResult,
      (analyze_excel_file fs wb comps fault now path).result = .ok r ∧
      (∀ n, n ∈ dictKeys r.module_code ↔
        n ∈ r.modules.map ModuleInfo.name) ∧
      (∀ c ∈ comps, c.countOfLines = 0 →
        r.module_code.lookup c.cname = some "(Empty Module)") ∧
      (∀ c ∈ comps, 0 < c.countOfLines →
        r.module_code.lookup c.cname = some c.codeText) := by
  obtain ⟨hmods, hcodes⟩ := runExtract_raised_none comps fault hra
  refine ⟨_, analyze_ok fs wb comps fault now path hex, ?_, ?_, ?_⟩
  · intro n
    show n ∈ dictKeys (runExtract comps fault).module_code ↔
      n ∈ (runExtract comps fault).modules.map ModuleInfo.name
    rw [hcodes, hmods, mem_dictKeys_buildCodes]
    simp [dictKeys, List.map_map, toModuleInfo, Function.comp]
  · intro c hc h0
    show (runExtract comps fault).module_code.lookup c.cname =
      some "(Empty Module)"
    rw [hcodes, lookup_buildCodes_mem comps [] c hc hnd]
    simp [storedCode, h0]
  · intro c hc hpos
    show (runExtract comps fault).module_code.lookup c.cname =
      some c.codeText
    rw [hcodes, lookup_buildCodes_mem comps [] c hc hnd]
    simp [storedCode, hpos]

/-- Witness for C4 on a concrete successful run with one nonempty and one
empty module. -/
theorem C4_success_mapping_witness :
    fsYes.pathExists "/tmp/book.xlsm" = true ∧
    (runExtract [compFull, compEmpty] .ok).raised = none ∧
    (([compFull, compEmpty] : List VBComponent).map
      VBComponent.cname).Nodup ∧
    (∃ r : AnalysisResult,
      (analyze_excel_file fsYes wbSample [compFull, compEmpty] .ok "d"
        "/tmp/book.xlsm").result = .ok r ∧
      (∀ n, n ∈ dictKeys r.module_code ↔
        n ∈ r.modules.map ModuleInfo.name) ∧
      (∀ c ∈ ([compFull, compEmpty] : List VBComponent),
        c.countOfLines = 0 →
        r.module_code.lookup c.cname = some "(Empty Module)") ∧
      (∀ c ∈ ([compFull, compEmpty] : List VBComponent),
        0 < c.countOfLines →
        r.module_code.lookup c.cname = some c.codeText)) :=
  ⟨rfl, by decide, by decide,
   C4_success_mapping fsYes wbSample [compFull, compEmpty] .ok "d"
     "/tmp/book.xlsm" rfl (by decide) (by decide)⟩

theorem append3_ne_of_not_isPrefixOf (p x s t : String)
    (h : p.data.isPrefixOf t.data = false) : p ++ x ++ s ≠ t := by
  intro he
  have hp : p.data.isPrefixOf t.data = true := by
    rw [← he]
    simp only [String.data_append, List.append_assoc]
    exact List.isPrefixOf_iff_prefix.mpr (List.prefix_append _ _)
  rw [hp] at h
  exact Bool.noConfusion h

theorem code_hdr_notMem_sheetWrites (s : SheetInfo) :
    "VBA MODULE CODE\n" ∉ sheetWrites s := by
  intro h
  simp only [sheetWrites, List.mem_cons, List.not_mem_nil, or_false] at h
  rcases h with h | h | h
  · exact append3_ne_of_not_isPrefixOf "\nSheet Name: " s.name "\n" _
      (by decide) h.symm
  · exact append3_ne_of_not_isPrefixOf "Has Content: "
      (if s.has_content then "True" else "False") "\n" _ (by decide) h.symm
  · exact append3_ne_of_not_isPrefixOf "Print Area: " s.print_area "\n" _
      (by decide) h.symm

theorem code_hdr_notMem_headWrites : "VBA MODULE CODE\n" ∉ headWrites := by
  decide

theorem code_hdr_notMem_fileInfoWrites (r : AnalysisResult) :
    "VBA MODULE CODE\n" ∉ fileInfoWrites r := by
  intro h
  simp only [fileInfoWrites, List.mem_cons, List.not_mem_nil, or_false] at h
  rcases h with h | h | h | h | h
  · exact absurd h (by decide)
  · exact absurd h (by decide)
  · exact append3_ne_of_not_isPrefixOf "Filename: " r.filename "\n" _
      (by decide) h.symm
  · exact append3_ne_of_not_isPrefixOf "Full Path: " r.full_path "\n" _
      (by decide) h.symm
  · exact append3_ne_of_not_isPrefixOf "Analysis Date: " r.analysis_date
      "\n\n" _ (by decide) h.symm

theorem code_hdr_notMem_worksheetWrites (r : AnalysisResult) :
    "VBA MODULE CODE\n" ∉ worksheetWrites r := by
  intro h
  simp only [worksheetWrites, List.mem_append, List.mem_cons,
    List.not_mem_nil, or_false, List.mem_flatten, List.mem_map] at h
  rcases h with ((h | h | h) | ⟨l, ⟨s, _, rfl⟩, hl⟩) | h
  · exact absurd h (by decide)
  · exact absurd h (by decide)
  · exact append3_ne_of_not_isPrefixOf "Total Worksheets: "
      (toString r.worksheets.length) "\n" _ (by decide) h.symm
  · exact code_hdr_notMem_sheetWrites s hl
  · exact absurd h (by decide)

theorem code_hdr_notMem_err (r : AnalysisResult) (e : String)
    (he : r.vba_error = some e) :
    "VBA MODULE CODE\n" ∉ reportWrites r := by
  intro h
  rw [reportWrites] at h
  simp only [List.mem_append] at h
  rcases h with ((h | h) | h) | h
  · exact code_hdr_notMem_headWrites h
  · exact code_hdr_notMem_fileInfoWrites r h
  · exact code_hdr_notMem_worksheetWrites r h
  · simp only [vbaWrites, he, List.mem_cons, List.not_mem_nil, or_false]
      at h
    rcases h with h | h | h
    · exact absurd h (by decide)
    · exact absurd h (by decide)
    · exact append3_ne_of_not_isPrefixOf "Error: " e "\n\n" _ (by decide)
        h.symm

theorem sublist_four {α : Type} (a b c d : α) (l1 l2 l3 l4 : List α)
    (ha : a ∈ l1) (hb : b ∈ l2) (hc : c ∈ l3) (hd : d ∈ l4) :
    List.Sublist [a, b, c, d] (l1 ++ l2 ++ l3 ++ l4) := by
  have h1 := List.singleton_sublist.mpr ha
  have h2 := List.singleton_sublist.mpr hb
  have h3 := List.singleton_sublist.mpr hc
  have h4 := List.singleton_sublist.mpr hd
  exact ((h1.append h2).append h3).append h4

/-- C7 counterexample: a populated result with a recorded vba_error
yields a report with no macro-source-listings section at all: the
VBA MODULE CODE header appears in none of the writes nor anywhere in the
document text, refuting the claim that every populated result gets the
four sections. -/
theorem C7_report_sections_counterexample :
    resErrSample.vba_error.isSome = true ∧
    "VBA MODULE CODE\n" ∉ reportWrites resErrSample ∧
    listInfixOf "VBA MODULE CODE".data
      (String.join (reportWrites resErrSample)).data = false := by decide

/-- C7 amended: when macro extraction succeeded, the report holds the
four fixed sections in order: file information, worksheet information,
macro-module information, and the macro source listings; when an error
was recorded, it holds the first two sections followed by the
macro-module-information header carrying the error line, and the source
listings section is omitted. -/
theorem C7_report_sections (r : AnalysisResult) :
    (r.vba_error = none →
      List.Sublist
        ["FILE INFORMATION\n", "WORKSHEET INFORMATION\n",
         "VBA MODULE INFORMATION\n", "VBA MODULE CODE\n"]
        (reportWrites r)) ∧
    (∀ e, r.vba_error = some e →
      List.Sublist
        ["FILE INFORMATION\n", "WORKSHEET INFORMATION\n",
         "VBA MODULE INFORMATION\n", "Error: " ++ e ++ "\n\n"]
        (reportWrites r) ∧
      "VBA MODULE CODE\n" ∉ reportWrites r) := by
  constructor
  · intro he
    have hv : vbaWrites r =
        (["VBA MODULE INFORMATION\n", strRepeat "-" 50 ++ "\n",
          "Total Modules: " ++ toString r.modules.length ++ "\n"]
          ++ (r.modules.map moduleWrites).flatten) ++
        (["\n", "VBA MODULE CODE\n", strRepeat "-" 50 ++ "\n"]
          ++ (r.module_code.map codeWrites).flatten) := by
      simp [vbaWrites, he, List.append_assoc]
    rw [reportWrites, hv]
    have hs := sublist_four "FILE INFORMATION\n" "WORKSHEET INFORMATION\n"
      "VBA MODULE INFORMATION\n" "VBA MODULE CODE\n"
      (headWrites ++ fileInfoWrites r) (worksheetWrites r)
      (["VBA MODULE INFORMATION\n", strRepeat "-" 50 ++ "\n",
        "Total Modules: " ++ toString r.modules.length ++ "\n"]
        ++ (r.modules.map moduleWrites).flatten)
      (["\n", "VBA MODULE CODE\n", strRepeat "-" 50 ++ "\n"]
        ++ (r.module_code.map codeWrites).flatten)
      (by simp [headWrites, fileInfoWrites]) (by simp [worksheetWrites])
      (by simp) (by simp)
    simp only [List.append_assoc] at hs ⊢
    exact hs
  · intro e he
    refine ⟨?_, code_hdr_notMem_err r e he⟩
    have hv : vbaWrites r =
        ["VBA MODULE INFORMATION\n", strRepeat "-" 50 ++ "\n"] ++
        ["Error: " ++ e ++ "\n\n"] := by
      simp [vbaWrites, he]
    rw [reportWrites, hv]
    have hs := sublist_four "FILE INFORMATION\n" "WORKSHEET INFORMATION\n"
      "VBA MODULE INFORMATION\n" ("Error: " ++ e ++ "\n\n")
      (headWrites ++ fileInfoWrites r) (worksheetWrites r)
      ["VBA MODULE INFORMATION\n", strRepeat "-" 50 ++ "\n"]
      ["Error: " ++ e ++ "\n\n"]
      (by simp [headWrites, fileInfoWrites]) (by simp [worksheetWrites])
      (by simp) (by simp)
    simp only [List.append_assoc] at hs ⊢
    exact hs

/-- Witness for the amended C7 on a concrete success result and a
concrete error result. -/
theorem C7_report_sections_witness :
    (resOkSample.vba_error = none ∧
     List.Sublist
       ["FILE INFORMATION\n", "WORKSHEET INFORMATION\n",
        "VBA MODULE INFORMATION\n", "VBA MODULE CODE\n"]
       (reportWrites resOkSample)) ∧
    (resErrSample.vba_error =
      some "VBA access not enabled in Excel Trust Center" ∧
     List.Sublist
       ["FILE INFORMATION\n", "WORKSHEET INFORMATION\n",
        "VBA MODULE INFORMATION\n",
        "Error: " ++ "VBA access not enabled in Excel Trust Center" ++
          "\n\n"]
       (reportWrites resErrSample) ∧
     "VBA MODULE CODE\n" ∉ reportWrites resErrSample) :=
  ⟨⟨rfl, (C7_report_sections resOkSample).1 rfl⟩,
   ⟨rfl, (C7_report_sections resErrSample).2
      "VBA access not enabled in Excel Trust Center" rfl⟩⟩

/-- C8: the report writer derives the output path as
dir/(basename)_analysis_(timestamp).txt where dir is the directory of the
analyzed file unless a caller-supplied directory is given and basename is
the source filename without its extension; the file is written with UTF-8
encoding and the path the orchestrator reports is exactly the path
written. -/
theorem C8_output_path (fs : FileSystem) (wb : Workbook)
    (comps : List VBComponent) (fault : Fault) (now ts path : String)
    (hp : path ≠ "") (hex : fs.pathExists path = true) :
    ∃ r : AnalysisResult, ∃ content : String,
      (analyze_excel_file fs wb comps fault now path).result = .ok r ∧
      (∀ d, (save_analysis_to_file r (some d) ts).1 =
        os_path_join d
          ((os_path_splitext r.filename).1 ++ "_analysis_" ++ ts ++
            ".txt")) ∧
      (save_analysis_to_file r none ts).1 =
        os_path_join (os_path_dirname r.full_path)
          ((os_path_splitext r.filename).1 ++ "_analysis_" ++ ts ++
            ".txt") ∧
      (mainRun fs wb comps fault now ts path).1 =
        [MainAction.wroteReport (save_analysis_to_file r none ts).1
           "utf-8" content,
         MainAction.infoDialog "Analysis Complete"
           ("Analysis has been saved to:\n" ++
             (save_analysis_to_file r none ts).1)] := by
  refine ⟨analyzeRecord wb comps fault now path,
    String.join
      (save_analysis_to_file (analyzeRecord wb comps fault now path) none
        ts).2,
    analyze_ok fs wb comps fault now path hex, fun d => rfl, rfl, ?_⟩
  simp only [mainRun, if_neg hp,
    analyze_ok fs wb comps fault now path hex]

/-- Witness for C8 at a concrete path and timestamp. -/
theorem C8_output_path_witness :
    ("/tmp/book.xlsm" : String) ≠ "" ∧
    fsYes.pathExists "/tmp/book.xlsm" = true ∧
    (∃ r : AnalysisResult, ∃ content : String,
      (analyze_excel_file fsYes wbSample [] .ok "d"
        "/tmp/book.xlsm").result = .ok r ∧
      (∀ d, (save_analysis_to_file r (some d) "20260101_120000").1 =
        os_path_join d
          ((os_path_splitext r.filename).1 ++ "_analysis_" ++
            "20260101_120000" ++ ".txt")) ∧
      (save_analysis_to_file r none "20260101_120000").1 =
        os_path_join (os_path_dirname r.full_path)
          ((os_path_splitext r.filename).1 ++ "_analysis_" ++
            "20260101_120000" ++ ".txt") ∧
      (mainRun fsYes wbSample [] .ok "d" "20260101_120000"
        "/tmp/book.xlsm").1 =
        [MainAction.wroteReport
           (save_analysis_to_file r none "20260101_120000").1 "utf-8"
           content,
         MainAction.infoDialog "Analysis Complete"
           ("Analysis has been saved to:\n" ++
             (save_analysis_to_file r none "20260101_120000").1)]) :=
  ⟨by decide, rfl,
   C8_output_path fsYes wbSample [] .ok "d" "20260101_120000"
     "/tmp/book.xlsm" (by decide) rfl⟩

end VBAHelper
